import Mathlib

/-!
Verification of the LeapMotionControl script (Stewart-Platform repository).

The source file `LeapMotionControl/LeapMotionControl.py` has two cores:

* a kinematics solver: from a hand pose (palm position x,y,z and
  pitch/yaw/roll angles) it builds a 4×4 affine rotation matrix and computes
  six actuator extension lengths against the fixed platform geometry;
* an output pacer / transmitter: the `on_frame` callback rate-limits
  transmissions with a frame counter, formats the lengths as
  `<v0,v1,v2,v3,v4,v5>` and writes the string over a serial link, recovering
  from write timeouts by closing and reopening the link.

The embedding follows the source line by line.  Real arithmetic models the
floating-point computation of the solver.  The pacer is modelled as a pure
step function from the counter state and a frame event to the new counter
and the list of observable side effects (solver run, console prints, serial
write attempts, link close/reopen), in the order the source performs them;
the command string carried by a frame event abstracts the output of
`assemble_serial_output` on that frame's solved lengths, which the pacing
logic never inspects.
-/

namespace LeapMotionControl

/-- Source constant `FRAME_RATE = 10`: number of frames to skip before
sending/printing data. -/
def FRAME_RATE : Nat := 10

/-- Source constant `NO_SERIAL = False`. -/
def NO_SERIAL : Bool := false

/-- Source constant `NUM_ACTUATORS = 6`. -/
def NUM_ACTUATORS : Nat := 6

/-- Source constant `HOME_POSITION_HEIGHT = 319.0`. -/
def HOME_POSITION_HEIGHT : ℝ := 319

/-- Source constant `MIN_ACTUATOR_LEN = 335.0`. -/
def MIN_ACTUATOR_LEN : ℝ := 335

/-- Source constant `BASE_POS`: six base actuator positions, 1×3 vectors. -/
noncomputable def BASE_POS : Fin 6 → Fin 3 → ℝ :=
  ![![-246.34, 86.42, 0],
    ![-198.16, 170.38, 0],
    ![198.16, 170.38, 0],
    ![246.34, 86.42, 0],
    ![48.48, -256.80, 0],
    ![-48.48, -256.80, 0]]

/-- Source constant `END_EFF_POS`: six end-effector positions, 1×4
homogeneous vectors. -/
noncomputable def END_EFF_POS : Fin 6 → Fin 4 → ℝ :=
  ![![-225.6, -73.26, 0, 1],
    ![-49.35, 232.01, 0, 1],
    ![49.35, 232.01, 0, 1],
    ![225.60, -73.26, 0, 1],
    ![176.25, -158.75, 0, 1],
    ![-176.25, -158.75, 0, 1]]

/-- Truncation toward zero of a rational, modelling Python `int(l)` applied
to a float: the fractional part is discarded, for negative values as well as
for positive ones. -/
def truncRat (q : ℚ) : ℤ :=
  if 0 ≤ q.num then ((q.num.toNat / q.den : ℕ) : ℤ)
  else -(((-q.num).toNat / q.den : ℤ))

/-- Source function `assemble_serial_output`: joins `str(int(l))` for each
actuator value with commas and encloses the result in angle brackets, with
no whitespace.  Rationals stand for the IEEE doubles of the source; Python
`int()` truncates toward zero, which `truncRat` reproduces exactly. -/
def assemble_serial_output (actuators : List ℚ) : String :=
  "<" ++ String.intercalate "," (actuators.map fun l => toString (truncRat l)) ++ ">"

/-- A hand pose as read in `on_frame`: `hand.palm_position` (x, y, z),
`hand.direction.pitch`, `hand.direction.yaw`, `hand.palm_normal.roll`. -/
structure HandPose where
  px : ℝ
  py : ℝ
  pz : ℝ
  pitch : ℝ
  yaw : ℝ
  roll : ℝ

/-- The 4×4 affine transform matrix built in `on_frame` from the pose
angles, row by row as written in the source. -/
noncomputable def transform_matrix (pitch yaw roll : ℝ) : Matrix (Fin 4) (Fin 4) ℝ :=
  !![Real.cos yaw * Real.cos pitch, Real.cos pitch * Real.sin yaw, -Real.sin pitch, 0;
     Real.cos yaw * Real.sin pitch * Real.sin roll - Real.sin yaw * Real.cos roll,
       Real.cos yaw * Real.cos roll + Real.sin roll * Real.sin yaw * Real.sin pitch,
       Real.cos pitch * Real.sin roll, 0;
     Real.cos yaw * Real.sin pitch * Real.cos roll + Real.sin yaw * Real.sin roll,
       -Real.cos yaw * Real.sin roll + Real.cos roll * Real.sin yaw * Real.sin pitch,
       Real.cos pitch * Real.cos roll, 0;
     0, 0, 0, 1]

/-- `effector_pos = transform_matrix * END_EFF_POS[i].T
+ [pos.x, -pos.z, pos.y + HOME_POSITION_HEIGHT, 0].T` from `on_frame`. -/
noncomputable def effector_pos (p : HandPose) (i : Fin 6) : Fin 4 → ℝ :=
  (transform_matrix p.pitch p.yaw p.roll).mulVec (END_EFF_POS i) +
    ![p.px, -p.pz, p.py + HOME_POSITION_HEIGHT, 0]

/-- One entry of the `actuator_lengths` list of `on_frame`:
`np.linalg.norm(effector_pos[:3,:] - BASE_POS[i].T) - MIN_ACTUATOR_LEN`,
the norm written as the square root of the sum of the three squares. -/
noncomputable def actuator_length (p : HandPose) (i : Fin 6) : ℝ :=
  Real.sqrt ((effector_pos p i 0 - BASE_POS i 0) ^ 2 +
    (effector_pos p i 1 - BASE_POS i 1) ^ 2 +
    (effector_pos p i 2 - BASE_POS i 2) ^ 2) - MIN_ACTUATOR_LEN

/-- The `actuator_lengths` list built by the `for i in xrange(NUM_ACTUATORS)`
loop of `on_frame`, in actuator index order. -/
noncomputable def actuator_lengths (p : HandPose) : List ℝ :=
  List.ofFn (actuator_length p)

/-- Observable side effects of one `on_frame` call, in execution order:
the solver running (taken together with the string assembly), a console
print, a serial write attempt, closing the link, reopening the link. -/
inductive SerialAction where
  | solveStep
  | printMsg (s : String)
  | writeCmd (s : String)
  | closeLink
  | openLink
deriving DecidableEq

/-- One incoming tracking frame, as `on_frame` observes it:
whether `len(frame.hands) > 0`, whether `frame.hands.rightmost.is_valid`,
the command string `assemble_serial_output` would produce for this frame's
pose, and whether a serial write on this frame would raise
`serial.SerialTimeoutException` (fault injection by the environment). -/
structure FrameEvent where
  handsNonempty : Bool
  rightmostValid : Bool
  cmd : String
  writeTimesOut : Bool
deriving DecidableEq

/-- The pacing and transmission logic of `on_frame`: from the frame-skip
rate, the current `frame_count` and an incoming frame, produce the new
`frame_count` and the side effects in source order.  On a valid hand the
solver always runs; if `frame_count > FRAME_RATE` the string is printed and
written, a timeout prints the diagnostic five times then closes and reopens
the link, and the counter is reset to 0 after the try/except in all cases;
otherwise the counter is incremented.  An invalid or absent hand leaves the
state untouched. -/
def on_frame_step (rate : Nat) (frame_count : Nat) (f : FrameEvent) :
    Nat × List SerialAction :=
  if f.handsNonempty then
    if f.rightmostValid then
      if rate < frame_count then
        (0, SerialAction.solveStep :: SerialAction.printMsg f.cmd ::
          (if NO_SERIAL then []
           else if f.writeTimesOut then
             SerialAction.writeCmd f.cmd ::
               (List.replicate 5 (SerialAction.printMsg "Timeout detected!") ++
                 [SerialAction.closeLink, SerialAction.openLink])
           else [SerialAction.writeCmd f.cmd]))
      else
        (frame_count + 1, [SerialAction.solveStep])
    else (frame_count, [])
  else (frame_count, [])

/-- Folding `on_frame_step` over a stream of frames, starting from a counter
value, collecting all side effects in order. -/
def runFrames (rate : Nat) (frame_count : Nat) : List FrameEvent → Nat × List SerialAction
  | [] => (frame_count, [])
  | f :: rest =>
    let step := on_frame_step rate frame_count f
    let restRun := runFrames rate step.1 rest
    (restRun.1, step.2 ++ restRun.2)

/-- Number of serial write attempts (transmissions) in a side-effect list. -/
def countWrites (acts : List SerialAction) : Nat :=
  acts.countP fun a => match a with | SerialAction.writeCmd _ => true | _ => false

/-- Number of link closes in a side-effect list. -/
def countCloses (acts : List SerialAction) : Nat :=
  acts.countP fun a => match a with | SerialAction.closeLink => true | _ => false

/-- Number of link reopens in a side-effect list. -/
def countOpens (acts : List SerialAction) : Nat :=
  acts.countP fun a => match a with | SerialAction.openLink => true | _ => false

/-- A frame carrying a valid hand: hands present and the rightmost valid. -/
def isValidFrame (f : FrameEvent) : Prop :=
  f.handsNonempty = true ∧ f.rightmostValid = true

instance (f : FrameEvent) : Decidable (isValidFrame f) := by
  unfold isValidFrame; infer_instance

/-- A concrete valid-pose frame whose write succeeds. -/
def validEv : FrameEvent :=
  { handsNonempty := true, rightmostValid := true,
    cmd := "<0,0,0,0,0,0>", writeTimesOut := false }

/-- A concrete frame with no hands present. -/
def invalidEv : FrameEvent :=
  { handsNonempty := false, rightmostValid := false, cmd := "", writeTimesOut := false }

/-- A concrete valid-pose frame whose serial write times out. -/
def timeoutEv : FrameEvent :=
  { handsNonempty := true, rightmostValid := true,
    cmd := "<1,2,3,4,5,6>", writeTimesOut := true }

/-- A frame without a valid hand leaves the counter unchanged and has no
side effects: in the source the whole body of `on_frame` is guarded by
`len(frame.hands) > 0` and `hand.is_valid`. -/
theorem invalid_step (rate c : Nat) (f : FrameEvent)
    (h : f.handsNonempty = false ∨ f.rightmostValid = false) :
    on_frame_step rate c f = (c, []) := by
  unfold on_frame_step
  rcases h with h | h
  · simp [h]
  · by_cases h2 : f.handsNonempty <;> simp [h, h2]

/-- A valid frame with `frame_count <= FRAME_RATE` only runs the solver and
increments the counter. -/
theorem increment_step (rate c : Nat) (f : FrameEvent) (hv : isValidFrame f)
    (hc : ¬ rate < c) :
    on_frame_step rate c f = (c + 1, [SerialAction.solveStep]) := by
  unfold on_frame_step
  simp [hv.1, hv.2, hc]

/-- A valid frame with `frame_count > FRAME_RATE` transmits: solver, debug
print, one write attempt, and on a timeout five diagnostics plus a link
close and reopen; the counter is reset to 0. -/
theorem transmit_step (rate c : Nat) (f : FrameEvent) (hv : isValidFrame f)
    (hc : rate < c) :
    on_frame_step rate c f = (0, SerialAction.solveStep :: SerialAction.printMsg f.cmd ::
      (if f.writeTimesOut then
         SerialAction.writeCmd f.cmd ::
           (List.replicate 5 (SerialAction.printMsg "Timeout detected!") ++
             [SerialAction.closeLink, SerialAction.openLink])
       else [SerialAction.writeCmd f.cmd])) := by
  unfold on_frame_step
  simp [hv.1, hv.2, hc, NO_SERIAL]

/-- The counter never exceeds `rate + 1` when it starts at most there. -/
theorem frame_count_le (rate c : Nat) (fs : List FrameEvent) (h : c ≤ rate + 1) :
    (runFrames rate c fs).1 ≤ rate + 1 := by
  induction fs generalizing c with
  | nil => exact h
  | cons f rest ih =>
    show (runFrames rate (on_frame_step rate c f).1 rest).1 ≤ rate + 1
    apply ih
    unfold on_frame_step
    split_ifs <;> simp <;> omega

/-- From a counter `c ≤ rate + 1`, a stream of `rate + 2 - c` valid frames
produces exactly one transmission and ends with the counter reset to 0. -/
theorem window_once (rate : Nat) (fs : List FrameEvent) :
    ∀ c : Nat, c ≤ rate + 1 → c + fs.length = rate + 2 →
    (∀ f ∈ fs, isValidFrame f) →
    (runFrames rate c fs).1 = 0 ∧ countWrites (runFrames rate c fs).2 = 1 := by
  induction fs with
  | nil => intro c hc hlen _; simp at hlen; omega
  | cons f rest ih =>
    intro c hc hlen hval
    have hvf : isValidFrame f := hval f (List.mem_cons_self f rest)
    by_cases hrc : rate < c
    · have hc' : c = rate + 1 := by omega
      have hrest : rest = [] := by
        have : rest.length = 0 := by simp at hlen; omega
        exact List.eq_nil_of_length_eq_zero this
      subst hrest
      have h2 := transmit_step rate c f hvf hrc
      simp only [runFrames, h2]
      by_cases ht : f.writeTimesOut <;>
        simp [ht, countWrites, List.countP_cons, List.countP_append, runFrames]
    · have h2 := increment_step rate c f hvf hrc
      have hlen' : (c + 1) + rest.length = rate + 2 := by simp at hlen; omega
      have hc' : c + 1 ≤ rate + 1 := by omega
      have hih := ih (c + 1) hc' hlen' (fun g hg => hval g (List.mem_cons_of_mem f hg))
      constructor
      · show (runFrames rate (on_frame_step rate c f).1 rest).1 = 0
        rw [h2]; exact hih.1
      · show countWrites ((on_frame_step rate c f).2 ++
          (runFrames rate (on_frame_step rate c f).1 rest).2) = 1
        rw [h2]
        show countWrites ([SerialAction.solveStep] ++ (runFrames rate (c + 1) rest).2) = 1
        unfold countWrites
        rw [List.countP_append]
        have h3 := hih.2
        unfold countWrites at h3
        simp [h3]

/-- C1 counterexample: with `FRAME_RATE = 10`, the first window of
`FRAME_RATE + 1` consecutive valid-pose frames from the initial state
Idle(0) triggers zero transmissions, not exactly one: the code transmits
once per `FRAME_RATE + 2` frames. -/
theorem C1_counterexample :
    (∀ f ∈ List.replicate (FRAME_RATE + 1) validEv, isValidFrame f) ∧
    countWrites (runFrames FRAME_RATE 0 (List.replicate (FRAME_RATE + 1) validEv)).2 = 0 := by
  decide

/-- C1 (amended): for a fixed frame skip rate `N`, starting from the
initial state Idle(0), every window of `N + 2` consecutive valid-pose
frames triggers exactly one transmission, after which the counter is reset
to 0 (so the windows repeat). -/
theorem C1_window_transmits_once (rate : Nat) (fs : List FrameEvent)
    (hlen : fs.length = rate + 2) (hval : ∀ f ∈ fs, isValidFrame f) :
    (runFrames rate 0 fs).1 = 0 ∧ countWrites (runFrames rate 0 fs).2 = 1 :=
  window_once rate fs 0 (by omega) (by omega) hval

/-- C1 witness: a concrete window of `FRAME_RATE + 2` valid frames. -/
theorem C1_window_transmits_once_witness :
    ((List.replicate (FRAME_RATE + 2) validEv).length = FRAME_RATE + 2 ∧
      ∀ f ∈ List.replicate (FRAME_RATE + 2) validEv, isValidFrame f) ∧
    ((runFrames FRAME_RATE 0 (List.replicate (FRAME_RATE + 2) validEv)).1 = 0 ∧
      countWrites (runFrames FRAME_RATE 0 (List.replicate (FRAME_RATE + 2) validEv)).2 = 1) :=
  ⟨⟨by decide, by decide⟩,
    C1_window_transmits_once FRAME_RATE (List.replicate (FRAME_RATE + 2) validEv)
      (by decide) (by decide)⟩

/-- C2 counterexample: after `FRAME_RATE + 1` valid frames from Idle(0) the
counter equals `FRAME_RATE + 1`, which exceeds `FRAME_RATE`: the source
increments while `frame_count <= FRAME_RATE`, so the counter reaches 11. -/
theorem C2_counterexample :
    (runFrames FRAME_RATE 0 (List.replicate (FRAME_RATE + 1) validEv)).1 = FRAME_RATE + 1 ∧
    ¬ (runFrames FRAME_RATE 0 (List.replicate (FRAME_RATE + 1) validEv)).1 ≤ FRAME_RATE := by
  decide

/-- C2 (amended): starting from any counter value at most `rate + 1` (in
particular from the initial state Idle(0)), after every processed frame the
counter is at least 0 and at most `rate + 1` — one more than the claimed
bound `FRAME_RATE`. -/
theorem C2_counter_bounded (rate c : Nat) (fs : List FrameEvent) (h : c ≤ rate + 1) :
    0 ≤ (runFrames rate c fs).1 ∧ (runFrames rate c fs).1 ≤ rate + 1 :=
  ⟨Nat.zero_le _, frame_count_le rate c fs h⟩

/-- C2 witness: a concrete mixed stream of 15 valid frames from Idle(0). -/
theorem C2_counter_bounded_witness :
    (0 : Nat) ≤ FRAME_RATE + 1 ∧
    (0 ≤ (runFrames FRAME_RATE 0 (List.replicate 15 validEv)).1 ∧
      (runFrames FRAME_RATE 0 (List.replicate 15 validEv)).1 ≤ FRAME_RATE + 1) :=
  ⟨by decide, C2_counter_bounded FRAME_RATE 0 (List.replicate 15 validEv) (by decide)⟩

/-- C3 counterexample: at counter 0, a frame with no hands leaves the
counter at 0 while a non-transmitting valid frame advances it to 1 — an
invalid frame does not advance the pacing counter, contrary to the claim. -/
theorem C3_counterexample :
    invalidEv.handsNonempty = false ∧
    on_frame_step FRAME_RATE 0 invalidEv = (0, []) ∧
    (on_frame_step FRAME_RATE 0 validEv).1 = 1 ∧
    (on_frame_step FRAME_RATE 0 invalidEv).1 ≠ (on_frame_step FRAME_RATE 0 validEv).1 := by
  decide

/-- C3 (amended): a frame without a valid hand (no hands, or rightmost hand
invalid) produces no output and leaves the frame counter unchanged: the
whole pacing rule lives inside the valid-hand branch of `on_frame`. -/
theorem C3_invalid_frame_no_advance (rate c : Nat) (f : FrameEvent)
    (h : f.handsNonempty = false ∨ f.rightmostValid = false) :
    on_frame_step rate c f = (c, []) :=
  invalid_step rate c f h

/-- C3 witness: the concrete no-hands frame at counter 3. -/
theorem C3_invalid_frame_no_advance_witness :
    (invalidEv.handsNonempty = false ∨ invalidEv.rightmostValid = false) ∧
    on_frame_step FRAME_RATE 3 invalidEv = (3, []) :=
  ⟨Or.inl (by decide), C3_invalid_frame_no_advance FRAME_RATE 3 invalidEv (Or.inl (by decide))⟩

/-- C4: for every hand pose and actuator index, the solver's output is the
Euclidean norm of the first three components of
`R · effector[i]ᵗ + (x, -z, y + HOME_POSITION_HEIGHT, 0)ᵗ` minus `base[i]`,
minus `MIN_ACTUATOR_LEN`, and the six results come in actuator index
order. -/
theorem C4_actuator_length_formula (p : HandPose) :
    actuator_lengths p = List.ofFn (fun i : Fin 6 =>
      ‖((WithLp.equiv 2 (Fin 3 → ℝ)).symm
          (fun j : Fin 3 =>
            ((transform_matrix p.pitch p.yaw p.roll).mulVec (END_EFF_POS i) +
              ![p.px, -p.pz, p.py + HOME_POSITION_HEIGHT, 0]) j.castSucc -
            BASE_POS i j) : EuclideanSpace ℝ (Fin 3))‖ - MIN_ACTUATOR_LEN) := by
  unfold actuator_lengths
  congr 1
  funext i
  unfold actuator_length effector_pos
  congr 1
  rw [EuclideanSpace.norm_eq]
  simp only [WithLp.equiv_symm_pi_apply, Real.norm_eq_abs, sq_abs, Fin.sum_univ_three]
  congr 1

/-- C5: the output formatter truncates each value toward zero (floor for
nonnegative values, ceiling for negative ones), joins the six integers with
commas and encloses them in angle brackets with no whitespace; on the
example list 1.7, -2.9, 0.0, 100.4, -0.1, 5.9 it yields
exactly the string of 1, -2, 0, 100, 0, 5. -/
theorem C5_assemble_serial_output_format :
    (∀ q : ℚ, truncRat q = if 0 ≤ q then ⌊q⌋ else ⌈q⌉) ∧
    (∀ a b c d e f : ℚ, assemble_serial_output [a, b, c, d, e, f] =
      "<" ++ toString (truncRat a) ++ "," ++ toString (truncRat b) ++ "," ++
      toString (truncRat c) ++ "," ++ toString (truncRat d) ++ "," ++
      toString (truncRat e) ++ "," ++ toString (truncRat f) ++ ">") ∧
    assemble_serial_output [17/10, -29/10, 0, 1004/10, -1/10, 59/10] = "<1,-2,0,100,0,5>" := by
  refine ⟨?_, ?_, ?_⟩
  · intro q
    unfold truncRat
    rcases le_or_lt 0 q.num with h | h
    · rw [if_pos h, if_pos (Rat.num_nonneg.mp h), Rat.floor_def]
      push_cast [Int.toNat_of_nonneg h]
      rfl
    · rw [if_neg (not_le.mpr h), if_neg (not_le.mpr (Rat.num_neg.mp h))]
      have hq : ⌈q⌉ = -⌊-q⌋ := by rw [← Int.ceil_neg, neg_neg]
      rw [hq, Rat.floor_def]
      have hd : (-q).den = q.den := by simp [Rat.neg_den]
      have hn : (-q).num = -q.num := by simp [Rat.neg_num]
      rw [hd, hn]
      push_cast [Int.toNat_of_nonneg (by omega : (0 : ℤ) ≤ -q.num)]
      rfl
  · intro a b c d e f
    simp [assemble_serial_output, String.intercalate, String.intercalate.go,
      String.append_assoc]
  · rw [show (17 : ℚ) / 10 = mkRat 17 10 from by norm_num [Rat.mkRat_eq_div],
        show (-29 : ℚ) / 10 = mkRat (-29) 10 from by norm_num [Rat.mkRat_eq_div],
        show (1004 : ℚ) / 10 = mkRat 1004 10 from by norm_num [Rat.mkRat_eq_div],
        show (-1 : ℚ) / 10 = mkRat (-1) 10 from by norm_num [Rat.mkRat_eq_div],
        show (59 : ℚ) / 10 = mkRat 59 10 from by norm_num [Rat.mkRat_eq_div]]
    decide

/-- C6: on a transmitting frame whose serial write raises a timeout, the
link is closed once and reopened once, the command string is written
(attempted) exactly once with no retry, the diagnostic is printed, and the
session continues: the remaining frames are processed normally from the
reset counter. -/
theorem C6_timeout_recovery (rate c : Nat) (f : FrameEvent) (rest : List FrameEvent)
    (hv : isValidFrame f) (hc : rate < c) (ht : f.writeTimesOut = true) :
    (on_frame_step rate c f).1 = 0 ∧
    countWrites (on_frame_step rate c f).2 = 1 ∧
    countCloses (on_frame_step rate c f).2 = 1 ∧
    countOpens (on_frame_step rate c f).2 = 1 ∧
    SerialAction.printMsg "Timeout detected!" ∈ (on_frame_step rate c f).2 ∧
    runFrames rate c (f :: rest) =
      ((runFrames rate 0 rest).1, (on_frame_step rate c f).2 ++ (runFrames rate 0 rest).2) := by
  have h2 := transmit_step rate c f hv hc
  rw [h2]
  refine ⟨rfl, ?_, ?_, ?_, ?_, ?_⟩
  · simp [ht, countWrites, List.countP_cons, List.countP_append]
  · simp [ht, countCloses, List.countP_cons, List.countP_append]
  · simp [ht, countOpens, List.countP_cons, List.countP_append]
  · simp [ht]
  · simp only [runFrames, h2]

/-- C6 witness: a concrete timed-out transmission at counter 11 followed by
one more valid frame. -/
theorem C6_timeout_recovery_witness :
    (isValidFrame timeoutEv ∧ FRAME_RATE < 11 ∧ timeoutEv.writeTimesOut = true) ∧
    ((on_frame_step FRAME_RATE 11 timeoutEv).1 = 0 ∧
      countWrites (on_frame_step FRAME_RATE 11 timeoutEv).2 = 1 ∧
      countCloses (on_frame_step FRAME_RATE 11 timeoutEv).2 = 1 ∧
      countOpens (on_frame_step FRAME_RATE 11 timeoutEv).2 = 1 ∧
      SerialAction.printMsg "Timeout detected!" ∈ (on_frame_step FRAME_RATE 11 timeoutEv).2 ∧
      runFrames FRAME_RATE 11 (timeoutEv :: [validEv]) =
        ((runFrames FRAME_RATE 0 [validEv]).1,
          (on_frame_step FRAME_RATE 11 timeoutEv).2 ++ (runFrames FRAME_RATE 0 [validEv]).2)) :=
  ⟨⟨by decide, by decide, by decide⟩,
    C6_timeout_recovery FRAME_RATE 11 timeoutEv [validEv] (by decide) (by decide) (by decide)⟩

/-- C7: on a frame without a valid hand, no transmission is attempted and
the solver computation does not run: the step yields no write action and no
solver action. -/
theorem C7_invalid_frame_no_solver (rate c : Nat) (f : FrameEvent)
    (h : f.handsNonempty = false ∨ f.rightmostValid = false) :
    countWrites (on_frame_step rate c f).2 = 0 ∧
    SerialAction.solveStep ∉ (on_frame_step rate c f).2 := by
  rw [invalid_step rate c f h]
  exact ⟨rfl, by simp⟩

/-- C7 witness: the concrete no-hands frame at counter 0. -/
theorem C7_invalid_frame_no_solver_witness :
    (invalidEv.handsNonempty = false ∨ invalidEv.rightmostValid = false) ∧
    (countWrites (on_frame_step FRAME_RATE 0 invalidEv).2 = 0 ∧
      SerialAction.solveStep ∉ (on_frame_step FRAME_RATE 0 invalidEv).2) :=
  ⟨Or.inl (by decide), C7_invalid_frame_no_solver FRAME_RATE 0 invalidEv (Or.inl (by decide))⟩

/-- C8: at the identity pose (pitch = yaw = roll = 0), the constructed 4×4
transform matrix is exactly the identity matrix. -/
theorem C8_identity_pose_transform : transform_matrix 0 0 0 = 1 := by
  unfold transform_matrix
  ext i j
  fin_cases i <;> fin_cases j <;>
    simp [Matrix.one_apply, Matrix.vecHead, Matrix.vecTail]

/-- C9: replacing the yaw angle of any hand pose by yaw + 2π yields the
same six actuator lengths — periodicity of the rotation construction, exact
over real arithmetic. -/
theorem C9_yaw_periodicity (px py pz pitch yaw roll : ℝ) :
    actuator_lengths ⟨px, py, pz, pitch, yaw + 2 * Real.pi, roll⟩ =
      actuator_lengths ⟨px, py, pz, pitch, yaw, roll⟩ := by
  have hm : transform_matrix pitch (yaw + 2 * Real.pi) roll =
      transform_matrix pitch yaw roll := by
    unfold transform_matrix
    rw [Real.cos_add_two_pi, Real.sin_add_two_pi]
  unfold actuator_lengths
  congr 1
  funext i
  unfold actuator_length effector_pos
  dsimp only
  rw [hm]

/-- C10: when the serial write of a transmitting frame times out, the
counter is still reset to 0 on that frame, exactly as on a successful
transmission, so the subsequent pacing (counter evolution and number of
writes) is identical to the success case. -/
theorem C10_timeout_resets_counter (rate c : Nat) (f : FrameEvent) (rest : List FrameEvent)
    (hv : isValidFrame f) (hc : rate < c) (ht : f.writeTimesOut = true) :
    (on_frame_step rate c f).1 = 0 ∧
    (on_frame_step rate c { f with writeTimesOut := false }).1 = 0 ∧
    (runFrames rate c (f :: rest)).1 =
      (runFrames rate c ({ f with writeTimesOut := false } :: rest)).1 ∧
    countWrites (runFrames rate c (f :: rest)).2 =
      countWrites (runFrames rate c ({ f with writeTimesOut := false } :: rest)).2 := by
  have hv' : isValidFrame { f with writeTimesOut := false } := ⟨hv.1, hv.2⟩
  have h1 := transmit_step rate c f hv hc
  have h2 := transmit_step rate c { f with writeTimesOut := false } hv' hc
  refine ⟨by rw [h1], by rw [h2], ?_, ?_⟩
  · simp only [runFrames, h1, h2]
  · simp only [runFrames, h1, h2]
    simp [ht, countWrites, List.countP_cons, List.countP_append]

/-- C10 witness: the concrete timed-out transmission at counter 11 compared
with its successful twin. -/
theorem C10_timeout_resets_counter_witness :
    (isValidFrame timeoutEv ∧ FRAME_RATE < 11 ∧ timeoutEv.writeTimesOut = true) ∧
    ((on_frame_step FRAME_RATE 11 timeoutEv).1 = 0 ∧
      (on_frame_step FRAME_RATE 11 { timeoutEv with writeTimesOut := false }).1 = 0 ∧
      (runFrames FRAME_RATE 11 (timeoutEv :: [validEv])).1 =
        (runFrames FRAME_RATE 11 ({ timeoutEv with writeTimesOut := false } :: [validEv])).1 ∧
      countWrites (runFrames FRAME_RATE 11 (timeoutEv :: [validEv])).2 =
        countWrites (runFrames FRAME_RATE 11
          ({ timeoutEv with writeTimesOut := false } :: [validEv])).2) :=
  ⟨⟨by decide, by decide, by decide⟩,
    C10_timeout_resets_counter FRAME_RATE 11 timeoutEv [validEv]
      (by decide) (by decide) (by decide)⟩

end LeapMotionControl
